import Mathlib

/-!
Verification of the resilience/alerting core of the repository
(`airflow/utils/retry_handler.py` and `airflow/utils/monitoring.py`).

Times, delays and metric values are embedded as rationals (the Python code
uses floats and `datetime` values; all the control decisions are order
comparisons, which ℚ models exactly).  Python exceptions are embedded as an
`ErrorKind` enumeration covering the classes the code tests with
`isinstance`; an operation is a function from the attempt number to
`Except ErrorKind α`.  Randomness (`random.random()`) is a parameter
`r : ℚ` sampled in `[0, 1]`.
-/

namespace Vibe

/-- The `RetryStrategy` enum from `retry_handler.py` lines 12-17
(`FIXED | EXPONENTIAL | LINEAR | JITTER`). -/
inductive RetryStrategy where
  | fixed
  | exponential
  | linear
  | jitterStrategy
deriving DecidableEq, Repr

/-- Exception classes the retry handler distinguishes
(`retry_handler.py` lines 64-80), plus a catch-all for unknown kinds. -/
inductive ErrorKind where
  | connectionError
  | timeoutError
  | ioError
  | osError
  | keyboardInterrupt
  | systemExit
  | memoryError
  | syntaxError
  | typeError
  | valueError
  | otherError
deriving DecidableEq, Repr

/-- The `retryable_exceptions` tuple (`retry_handler.py` lines 65-70). -/
def ErrorKind.is_retryable : ErrorKind → Bool
  | .connectionError | .timeoutError | .ioError | .osError => true
  | _ => false

/-- The `non_retryable_exceptions` tuple (`retry_handler.py` lines 73-80). -/
def ErrorKind.is_non_retryable : ErrorKind → Bool
  | .keyboardInterrupt | .systemExit | .memoryError
  | .syntaxError | .typeError | .valueError => true
  | _ => false

/-- Exception kinds deriving from `BaseException` but not from
`Exception` in the Python class hierarchy (`KeyboardInterrupt` and
`SystemExit`; every other kind modelled here is an `Exception`
subclass).  The `except Exception` handler of the retry loop
(`retry_handler.py` line 116) does not catch these: they propagate out of
`retry_sync` at once, with no bookkeeping. -/
def ErrorKind.is_base_exception_only : ErrorKind → Bool
  | .keyboardInterrupt | .systemExit => true
  | _ => false

/-- Constructor configuration of `RetryHandler` (`retry_handler.py` lines 23-35). -/
structure RetryConfig where
  max_retries : Nat
  base_delay : ℚ
  max_delay : ℚ
  strategy : RetryStrategy
  backoff_factor : ℚ
  jitter : Bool

/-- Model of `RetryHandler.calculate_delay` (`retry_handler.py` lines 38-57).
`r` is the value returned by `random.random()` (at most one sample is
consumed on any single path through the function). -/
def calculate_delay (cfg : RetryConfig) (attempt : Nat) (r : ℚ) : ℚ :=
  let delay : ℚ :=
    match cfg.strategy with
    | .fixed => cfg.base_delay
    | .linear => cfg.base_delay * (attempt : ℚ)
    | .exponential => cfg.base_delay * cfg.backoff_factor ^ (attempt - 1)
    | .jitterStrategy =>
        cfg.base_delay * cfg.backoff_factor ^ (attempt - 1) * (1/2 + r * (1/2))
  let delay :=
    if cfg.jitter && !(cfg.strategy == RetryStrategy.jitterStrategy) then
      delay + delay * (1/10) * r
    else delay
  min delay cfg.max_delay

/-- Model of `RetryHandler.should_retry` (`retry_handler.py` lines 59-91):
budget check first, then the non-retryable set, then the retryable set,
then the optimistic default for unknown kinds. -/
def should_retry (cfg : RetryConfig) (e : ErrorKind) (attempt : Nat) : Bool :=
  if cfg.max_retries ≤ attempt then false
  else if e.is_non_retryable then false
  else if e.is_retryable then true
  else true

/-- Per-operation entry of `RetryHandler.retry_stats`
(`retry_handler.py` lines 186-192). -/
structure OperationStats where
  total_attempts : Nat
  successful_operations : Nat
  failed_operations : Nat
  exception_counts : List (ErrorKind × Nat)
  average_attempts_to_success : ℚ
deriving DecidableEq, Repr

/-- Zero-initialised stats entry created on first use
(`retry_handler.py` lines 185-192). -/
def initStats : OperationStats :=
  { total_attempts := 0
    successful_operations := 0
    failed_operations := 0
    exception_counts := []
    average_attempts_to_success := 0 }

/-- Increment of the per-exception-kind counter in the stats dict
(`retry_handler.py` line 206), on an association list. -/
def incCount : List (ErrorKind × Nat) → ErrorKind → List (ErrorKind × Nat)
  | [], k => [(k, 1)]
  | (k', n) :: rest, k =>
      if k' = k then (k, n + 1) :: rest else (k', n) :: incCount rest k

/-- Model of `RetryHandler._record_attempt` on a single operation entry
(`retry_handler.py` lines 179-209).  Note `failed_operations` is bumped
only when the failing attempt number equals `max_retries` (line 208). -/
def record_attempt (cfg : RetryConfig) (s : OperationStats) (attempt : Nat)
    (success : Bool) (exc : Option ErrorKind) : OperationStats :=
  let s := { s with total_attempts := s.total_attempts + 1 }
  let s :=
    if success then
      let n := s.successful_operations + 1
      { s with
        successful_operations := n
        average_attempts_to_success :=
          (s.average_attempts_to_success * ((n : ℚ) - 1) + (attempt : ℚ)) / (n : ℚ) }
    else s
  match exc with
  | none => s
  | some e =>
      let s := { s with exception_counts := incCount s.exception_counts e }
      if attempt = cfg.max_retries then
        { s with failed_operations := s.failed_operations + 1 }
      else s

/-- The `RetryHandler.retry_stats` dict, keyed by operation name. -/
abbrev StatsMap := List (String × OperationStats)

/-- Dict lookup, defaulting to the zero entry the code would create. -/
def getStats : StatsMap → String → OperationStats
  | [], _ => initStats
  | (n, s) :: rest, name => if n = name then s else getStats rest name

/-- Dict update (insert-or-replace). -/
def setStats : StatsMap → String → OperationStats → StatsMap
  | [], name, s => [(name, s)]
  | (n, s0) :: rest, name, s =>
      if n = name then (name, s) :: rest else (n, s0) :: setStats rest name s

/-- Action of `_record_attempt` on the whole `retry_stats` dict. -/
def record_attempt_state (cfg : RetryConfig) (m : StatsMap) (name : String)
    (attempt : Nat) (success : Bool) (exc : Option ErrorKind) : StatsMap :=
  setStats m name (record_attempt cfg (getStats m name) attempt success exc)

/-- Result of one run of `retry_sync`: the value returned, or the
re-raised last exception; `raisedNone` is the degenerate `raise None`
path reached only when `max_retries = 0` (the loop body never runs). -/
inductive RunOutcome (α : Type) where
  | ok : α → RunOutcome α
  | err : ErrorKind → RunOutcome α
  | raisedNone : RunOutcome α
deriving DecidableEq, Repr

/-- Observable result of `retry_sync`: outcome, final `retry_stats`, and
the list of delays passed to `time.sleep` in order. -/
structure RunState (α : Type) where
  outcome : RunOutcome α
  stats : StatsMap
  sleeps : List ℚ
deriving DecidableEq, Repr

/-- The `for attempt in range(1, self.max_retries + 1)` loop of
`RetryHandler.retry_sync` (`retry_handler.py` lines 102-132), recursing on
the number of remaining loop iterations.  `op attempt` is what the wrapped
callable does on that attempt; `rand attempt` is the random sample consumed
by `calculate_delay` on that attempt.  The handler is `except Exception as
e` (line 116): an error kind outside `Exception`
(`ErrorKind.is_base_exception_only`) escapes it uncaught — the raised
object reaching the caller is the same exception, but no attempt is
recorded, no sleep runs, and the loop does not continue. -/
def retrySyncAux (cfg : RetryConfig) (op : Nat → Except ErrorKind α)
    (rand : Nat → ℚ) (name : String) :
    Nat → Nat → StatsMap → List ℚ → Option ErrorKind → RunState α
  | _, 0, m, sleeps, last =>
      { outcome := match last with
          | none => .raisedNone
          | some e => .err e
        stats := m
        sleeps := sleeps }
  | attempt, remaining + 1, m, sleeps, _last =>
      match op attempt with
      | .ok v =>
          { outcome := .ok v
            stats := record_attempt_state cfg m name attempt true none
            sleeps := sleeps }
      | .error e =>
          if e.is_base_exception_only then
            { outcome := .err e
              stats := m
              sleeps := sleeps }
          else if should_retry cfg e attempt then
            let sleeps' :=
              if attempt < cfg.max_retries then
                sleeps ++ [calculate_delay cfg attempt (rand attempt)]
              else sleeps
            retrySyncAux cfg op rand name (attempt + 1) remaining
              (record_attempt_state cfg m name attempt false (some e)) sleeps' (some e)
          else
            { outcome := .err e
              stats := record_attempt_state cfg m name attempt false (some e)
              sleeps := sleeps }

/-- Model of `RetryHandler.retry_sync` (`retry_handler.py` lines 93-132), started
from `retry_stats = m`. -/
def retry_sync (cfg : RetryConfig) (op : Nat → Except ErrorKind α)
    (rand : Nat → ℚ) (name : String) (m : StatsMap) : RunState α :=
  retrySyncAux cfg op rand name 1 cfg.max_retries m [] none

/-! ## Circuit breaker (`retry_handler.py` lines 277-327) -/

/-- The `self.state` strings `'CLOSED' | 'OPEN' | 'HALF_OPEN'`
(`retry_handler.py` line 290); `opened` stands for `'OPEN'`. -/
inductive CircuitState where
  | closed
  | opened
  | halfOpen
deriving DecidableEq, Repr

/-- The `CircuitBreaker.__init__` configuration (`retry_handler.py` lines 280-286).
`expected_exception` is the membership test of the configured exception tuple. -/
structure CircuitBreakerConfig where
  failure_threshold : Nat
  recovery_timeout : ℚ
  expected_exception : ErrorKind → Bool

/-- Mutable fields of a `CircuitBreaker` (`retry_handler.py` lines 288-290). -/
structure CircuitBreakerState where
  failure_count : Nat
  last_failure_time : Option ℚ
  state : CircuitState
deriving DecidableEq, Repr

/-- Initial breaker state (`retry_handler.py` lines 288-290). -/
def initBreaker : CircuitBreakerState :=
  { failure_count := 0, last_failure_time := none, state := .closed }

/-- Model of `CircuitBreaker._on_success` (`retry_handler.py` lines 312-317). -/
def on_success (cb : CircuitBreakerState) : CircuitBreakerState :=
  let cb := { cb with failure_count := 0 }
  if cb.state = CircuitState.halfOpen then { cb with state := .closed } else cb

/-- Model of `CircuitBreaker._on_failure` (`retry_handler.py` lines 319-326). -/
def on_failure (cfg : CircuitBreakerConfig) (cb : CircuitBreakerState)
    (now : ℚ) : CircuitBreakerState :=
  let cb := { cb with
    failure_count := cb.failure_count + 1
    last_failure_time := some now }
  if cfg.failure_threshold ≤ cb.failure_count then { cb with state := .opened }
  else cb

/-- What one call through the breaker's `wrapper` does:
the value, a re-raised exception of the wrapped operation, the synthetic
`Exception("Circuit breaker is OPEN")`, or the degenerate arithmetic on a
`None` timestamp (unreachable from the initial state once OPEN is entered
through `_on_failure`). -/
inductive CallOutcome (α : Type) where
  | ok : α → CallOutcome α
  | raised : ErrorKind → CallOutcome α
  | circuitOpenError : CallOutcome α
  | noneTimestamp : CallOutcome α
deriving DecidableEq, Repr

/-- One breaker-wrapped call: outcome, new breaker state, and whether the
wrapped operation was actually invoked. -/
structure CallResult (α : Type) where
  outcome : CallOutcome α
  breaker : CircuitBreakerState
  invoked : Bool
deriving DecidableEq, Repr

/-- The `try`/`except` body of `wrapper` (`retry_handler.py` lines 302-308):
run the operation, bookkeeping on success, bookkeeping plus re-raise on an
expected exception, plain propagation (no bookkeeping) otherwise. -/
def breakerExec (cfg : CircuitBreakerConfig) (cb : CircuitBreakerState)
    (now : ℚ) (opResult : Except ErrorKind α) : CallResult α :=
  match opResult with
  | .ok v => { outcome := .ok v, breaker := on_success cb, invoked := true }
  | .error e =>
      if cfg.expected_exception e then
        { outcome := .raised e, breaker := on_failure cfg cb now, invoked := true }
      else
        { outcome := .raised e, breaker := cb, invoked := true }

/-- Model of the `wrapper` closure in `CircuitBreaker.__call__`
(`retry_handler.py` lines 292-310):
the OPEN fast-path check runs on every call with the current clock value
`now`; `now - last_failure_time > recovery_timeout` moves to HALF_OPEN,
otherwise the call is rejected without invoking the operation. -/
def breakerCall (cfg : CircuitBreakerConfig) (cb : CircuitBreakerState)
    (now : ℚ) (opResult : Except ErrorKind α) : CallResult α :=
  match cb.state with
  | .opened =>
      match cb.last_failure_time with
      | none => { outcome := .noneTimestamp, breaker := cb, invoked := false }
      | some t =>
          if cfg.recovery_timeout < now - t then
            breakerExec cfg { cb with state := .halfOpen } now opResult
          else
            { outcome := .circuitOpenError, breaker := cb, invoked := false }
  | _ => breakerExec cfg cb now opResult

/-- A sequence of calls through one breaker; each entry is the clock value
at the call and what the wrapped operation would do if invoked. -/
def runCalls (cfg : CircuitBreakerConfig) :
    CircuitBreakerState → List (ℚ × Except ErrorKind α) → CircuitBreakerState
  | cb, [] => cb
  | cb, (t, r) :: rest => runCalls cfg (breakerCall cfg cb t r).breaker rest

/-! ## Alerting (`monitoring.py` lines 19-405)

Metric snapshots are embedded as association lists of numeric values,
timestamps as rationals measured in minutes (the code's cooldowns are
`timedelta(minutes=...)` and its statistics window is `timedelta(hours=24)`,
i.e. 1440 minutes). -/

/-- The metrics dict passed into an evaluation cycle. -/
abbrev Snapshot := List (String × ℚ)

/-- Lookup `metrics.get(key, default)` on a snapshot. -/
def sget (s : Snapshot) (key : String) (dflt : ℚ) : ℚ :=
  match s with
  | [] => dflt
  | (k, v) :: rest => if k = key then v else sget rest key dflt

/-- The `AlertRule` dataclass (`monitoring.py` lines 19-28).  A condition
may raise (`Except.error`), matching the `try`/`except` around
`rule.condition(metrics)`. -/
structure AlertRule where
  name : String
  condition : Snapshot → Except Unit Bool
  severity : String
  message_template : String
  cooldown_minutes : ℚ
  enabled : Bool := true
  last_triggered : Option ℚ := none

/-- The per-rule body of `AlertManager.check_alert_conditions`
(`monitoring.py` lines 245-261): disabled rules are skipped; a rule whose
`last_triggered` is set and satisfies `now - last_triggered <
timedelta(minutes=cooldown_minutes)` is skipped; otherwise the condition is
evaluated, a raising condition is logged and skipped, and a true condition
stamps `last_triggered = now` and fires the rule. -/
def checkRule (now : ℚ) (metrics : Snapshot) (rule : AlertRule) :
    Bool × AlertRule :=
  if !rule.enabled then (false, rule)
  else
    let skip : Bool :=
      match rule.last_triggered with
      | some lt => decide (now - lt < rule.cooldown_minutes)
      | none => false
    if skip then (false, rule)
    else
      match rule.condition metrics with
      | .ok true => (true, { rule with last_triggered := some now })
      | .ok false => (false, rule)
      | .error _ => (false, rule)

/-- Model of `AlertManager.check_alert_conditions` (`monitoring.py` lines 241-263):
returns the fired rules in registration order together with the updated
rule list (the code mutates the rule objects in place). -/
def check_alert_conditions (now : ℚ) (metrics : Snapshot) :
    List AlertRule → List AlertRule × List AlertRule
  | [] => ([], [])
  | rule :: rest =>
      let step := checkRule now metrics rule
      let tail := check_alert_conditions now metrics rest
      (if step.1 then step.2 :: tail.1 else tail.1, step.2 :: tail.2)

/-- Repeated evaluations of a single rule: for each `(time, snapshot)`
pair run `checkRule` and thread the updated rule; returns the times at
which the rule fired, and the final rule. -/
def runRule (rule : AlertRule) : List (ℚ × Snapshot) → List ℚ × AlertRule
  | [] => ([], rule)
  | (t, s) :: rest =>
      let step := checkRule t s rule
      let tail := runRule step.2 rest
      (if step.1 then t :: tail.1 else tail.1, tail.2)

/-- One entry of `AlertManager.alert_history` (`monitoring.py`
lines 380-385). -/
structure AlertEvent where
  alert_name : String
  severity : String
  timestamp : ℚ
  metrics : Snapshot
deriving DecidableEq, Repr

/-- The mutable state of an `AlertManager` that the resilience core
touches: the registered rules and the alert history. -/
structure AlertManagerState where
  alert_rules : List AlertRule
  alert_history : List AlertEvent

/-- The snapshot copy `metrics.copy()` (`monitoring.py` line 384): the history entry stores
its own equal copy of the snapshot, so later mutation of the caller's dict
cannot change it.  On immutable Lean values the copy is the value itself. -/
def snapshotCopy (s : Snapshot) : Snapshot := s

/-- Model of `AlertManager.process_metrics_and_alerts` (`monitoring.py`
lines 359-385).  `emailSend`/`webhookSend` are the externally-determined
results of the two notification coroutines for a given rule;
`asyncio.gather(..., return_exceptions=True)` collects every task's result
(exception or value) without letting one failure cancel the rest, so the
call settles with the full list of per-task results.  After the gather the
history is extended by one event per fired rule, unconditionally. -/
def process_metrics_and_alerts (now : ℚ)
    (emailSend webhookSend : AlertRule → Snapshot → Except Unit Unit)
    (st : AlertManagerState) (metrics : Snapshot) :
    List (Except Unit Unit) × AlertManagerState :=
  let checked := check_alert_conditions now metrics st.alert_rules
  let gathered :=
    checked.1.flatMap (fun a => [emailSend a metrics, webhookSend a metrics])
  let history' := st.alert_history ++ checked.1.map (fun a =>
    { alert_name := a.name
      severity := a.severity
      timestamp := now
      metrics := snapshotCopy metrics })
  (gathered, { alert_rules := checked.2, alert_history := history' })

/-- Return shape of `AlertManager.get_alert_statistics`
(`monitoring.py` lines 398-405). -/
structure AlertStatistics where
  total_alerts : Nat
  critical_alerts : Nat
  warning_alerts : Nat
  recent_alerts_24h : Nat
  active_rules : Nat
  recent_alert_summary : List AlertEvent
deriving Repr

/-- Model of `AlertManager.get_alert_statistics` (`monitoring.py` lines 387-405):
the 24-hour window is recomputed from the event timestamps
(`datetime.fromisoformat(a['timestamp']) > datetime.now() - timedelta(hours=24)`),
and the summary is `recent_alerts[-10:]` — the last ten of the events
inside the window. -/
def get_alert_statistics (now : ℚ) (st : AlertManagerState) : AlertStatistics :=
  let recent_alerts :=
    st.alert_history.filter (fun a => decide (now - 1440 < a.timestamp))
  { total_alerts := st.alert_history.length
    critical_alerts :=
      (st.alert_history.filter (fun a => a.severity == "critical")).length
    warning_alerts :=
      (st.alert_history.filter (fun a => a.severity == "warning")).length
    recent_alerts_24h := recent_alerts.length
    active_rules := (st.alert_rules.filter (fun r => r.enabled)).length
    recent_alert_summary := recent_alerts.drop (recent_alerts.length - 10) }

/-! ### Default alert rules (`monitoring.py` lines 189-234) -/

/-- The `high_failure_rate` rule (`monitoring.py` lines 192-198). -/
def high_failure_rate_rule : AlertRule :=
  { name := "high_failure_rate"
    condition := fun metrics => .ok (decide (sget metrics "failure_rate" 0 > 1/10))
    severity := "critical"
    message_template :=
      "High failure rate detected: \x7bfailure_rate:.2%\x7d in DAG \x7bdag_id\x7d"
    cooldown_minutes := 15 }

/-- The `long_running_task` rule (`monitoring.py` lines 201-207): the
condition reads the key `task_duration` and defaults a missing key to 0. -/
def long_running_task_rule : AlertRule :=
  { name := "long_running_task"
    condition := fun metrics => .ok (decide (sget metrics "task_duration" 0 > 3600))
    severity := "warning"
    message_template :=
      "Task \x7btask_id\x7d in DAG \x7bdag_id\x7d running for \x7btask_duration:.0f\x7d seconds"
    cooldown_minutes := 30 }

/-- The `low_data_quality` rule (`monitoring.py` lines 210-216). -/
def low_data_quality_rule : AlertRule :=
  { name := "low_data_quality"
    condition := fun metrics => .ok (decide (sget metrics "data_quality_score" 1 < 4/5))
    severity := "warning"
    message_template :=
      "Low data quality detected: \x7bdata_quality_score:.2f\x7d for table \x7btable\x7d"
    cooldown_minutes := 60 }

/-- The `high_memory_usage` rule (`monitoring.py` lines 219-225). -/
def high_memory_usage_rule : AlertRule :=
  { name := "high_memory_usage"
    condition := fun metrics => .ok (decide (sget metrics "memory_usage_percent" 0 > 90))
    severity := "critical"
    message_template :=
      "High memory usage: \x7bmemory_usage_percent:.1f\x7d% on worker \x7bworker_id\x7d"
    cooldown_minutes := 10 }

/-- The `sla_violation` rule (`monitoring.py` lines 228-234). -/
def sla_violation_rule : AlertRule :=
  { name := "sla_violation"
    condition := fun metrics => .ok (decide (sget metrics "sla_violations" 0 > 0))
    severity := "critical"
    message_template :=
      "SLA violation in DAG \x7bdag_id\x7d: \x7bsla_violations\x7d violations"
    cooldown_minutes := 5 }

/-- The default rule list built by `AlertManager.setup_default_alert_rules`
(`monitoring.py` lines 189-234), in registration order. -/
def default_alert_rules : List AlertRule :=
  [high_failure_rate_rule, long_running_task_rule, low_data_quality_rule,
   high_memory_usage_rule, sla_violation_rule]

/-- A fresh breaker fed a sequence of failing calls: at clock value `p.1`
the wrapped operation raises the exception `p.2`. -/
def runFailures (cfg : CircuitBreakerConfig) (calls : List (ℚ × ErrorKind)) :
    CircuitBreakerState :=
  runCalls cfg initBreaker
    (calls.map fun p => (p.1, (Except.error p.2 : Except ErrorKind Unit)))

/-- A concrete rule that already fired at time 5 with a 10-minute
cooldown; its condition always holds. -/
def sampleTriggeredRule : AlertRule :=
  { name := "sample_triggered"
    condition := fun _ => .ok true
    severity := "info"
    message_template := "sample"
    cooldown_minutes := 10
    enabled := true
    last_triggered := some 5 }

/-- A concrete rule that has never fired; its condition always holds. -/
def sampleFreshRule : AlertRule :=
  { name := "sample_fresh"
    condition := fun _ => .ok true
    severity := "info"
    message_template := "sample"
    cooldown_minutes := 10
    enabled := true
    last_triggered := none }

/-! ## Helper lemmas -/

theorem getStats_setStats_self (m : StatsMap) (name : String) (s : OperationStats) :
    getStats (setStats m name s) name = s := by
  induction m with
  | nil => simp [setStats, getStats]
  | cons hd tl ih =>
      obtain ⟨n, s0⟩ := hd
      by_cases h : n = name <;> simp [setStats, getStats, h, ih]

theorem getStats_record_attempt_state (cfg : RetryConfig) (m : StatsMap)
    (name : String) (attempt : Nat) (success : Bool) (exc : Option ErrorKind) :
    getStats (record_attempt_state cfg m name attempt success exc) name =
      record_attempt cfg (getStats m name) attempt success exc := by
  simp [record_attempt_state, getStats_setStats_self]

theorem record_attempt_total (cfg : RetryConfig) (s : OperationStats)
    (attempt : Nat) (success : Bool) (exc : Option ErrorKind) :
    (record_attempt cfg s attempt success exc).total_attempts =
      s.total_attempts + 1 := by
  cases exc <;> cases success <;>
    simp [record_attempt] <;> split <;> simp

theorem record_attempt_failed (cfg : RetryConfig) (s : OperationStats)
    (attempt : Nat) (success : Bool) (exc : Option ErrorKind) :
    (record_attempt cfg s attempt success exc).failed_operations =
      s.failed_operations +
        (if exc.isSome = true ∧ attempt = cfg.max_retries then 1 else 0) := by
  cases exc <;> cases success <;>
    simp [record_attempt] <;> split <;> simp_all

theorem should_retry_true_iff (cfg : RetryConfig) (e : ErrorKind) (attempt : Nat) :
    should_retry cfg e attempt = true ↔
      attempt < cfg.max_retries ∧ e.is_non_retryable = false := by
  unfold should_retry
  by_cases h1 : cfg.max_retries ≤ attempt
  · simp [h1]
  · by_cases h2 : e.is_non_retryable <;>
      by_cases h3 : e.is_retryable <;>
        simp [h1, h2, h3] <;> omega

theorem is_retryable_not_non_retryable (e : ErrorKind) :
    e.is_retryable = true → e.is_non_retryable = false := by
  cases e <;> simp [ErrorKind.is_retryable, ErrorKind.is_non_retryable]

theorem not_base_exception_of_not_non_retryable (e : ErrorKind) :
    e.is_non_retryable = false → e.is_base_exception_only = false := by
  cases e <;>
    simp [ErrorKind.is_non_retryable, ErrorKind.is_base_exception_only]

/-! ## Claim theorems -/

/-- C3: for every attempt ≥ 1 and every sampled random value `r ∈ [0, 1]`
(with a configuration whose durations and backoff factor are nonnegative),
`calculate_delay` is never negative and never exceeds `max_delay`; and when
jitter is disabled and the strategy is not JITTERED, it equals
`min (f attempt) max_delay` with `f` = `base_delay` for FIXED,
`base_delay * attempt` for LINEAR and
`base_delay * backoff_factor ^ (attempt - 1)` for EXPONENTIAL. -/
theorem calculate_delay_clamped_nonneg (cfg : RetryConfig) (attempt : Nat) (r : ℚ)
    (hb : 0 ≤ cfg.base_delay) (hf : 0 ≤ cfg.backoff_factor)
    (hm : 0 ≤ cfg.max_delay) (hr0 : 0 ≤ r) (_hr1 : r ≤ 1) :
    0 ≤ calculate_delay cfg attempt r ∧
    calculate_delay cfg attempt r ≤ cfg.max_delay ∧
    (cfg.jitter = false →
      (cfg.strategy = RetryStrategy.fixed →
        calculate_delay cfg attempt r = min cfg.base_delay cfg.max_delay) ∧
      (cfg.strategy = RetryStrategy.linear →
        calculate_delay cfg attempt r =
          min (cfg.base_delay * (attempt : ℚ)) cfg.max_delay) ∧
      (cfg.strategy = RetryStrategy.exponential →
        calculate_delay cfg attempt r =
          min (cfg.base_delay * cfg.backoff_factor ^ (attempt - 1)) cfg.max_delay)) := by
  have hraw : 0 ≤ (match cfg.strategy with
      | RetryStrategy.fixed => cfg.base_delay
      | RetryStrategy.linear => cfg.base_delay * (attempt : ℚ)
      | RetryStrategy.exponential => cfg.base_delay * cfg.backoff_factor ^ (attempt - 1)
      | RetryStrategy.jitterStrategy =>
          cfg.base_delay * cfg.backoff_factor ^ (attempt - 1) * (1/2 + r * (1/2))) := by
    cases h : cfg.strategy
    · exact hb
    · exact mul_nonneg hb (pow_nonneg hf _)
    · exact mul_nonneg hb (by positivity)
    · exact mul_nonneg (mul_nonneg hb (pow_nonneg hf _)) (by linarith)
  refine ⟨?_, ?_, ?_⟩
  · unfold calculate_delay
    apply le_min _ hm
    split
    · nlinarith [hraw]
    · exact hraw
  · exact min_le_right _ _
  · intro hj
    refine ⟨?_, ?_, ?_⟩ <;> intro hs <;> simp [calculate_delay, hj, hs]

/-- Witness for C3 at a concrete configuration, attempt 1 and `r = 0`. -/
theorem calculate_delay_clamped_nonneg_witness :
    (0 : ℚ) ≤ 1 ∧
    (0 ≤ calculate_delay ⟨3, 1, 300, RetryStrategy.fixed, 2, false⟩ 1 0 ∧
      calculate_delay ⟨3, 1, 300, RetryStrategy.fixed, 2, false⟩ 1 0 ≤ 300 ∧
      (false = false →
        (RetryStrategy.fixed = RetryStrategy.fixed →
          calculate_delay ⟨3, 1, 300, RetryStrategy.fixed, 2, false⟩ 1 0 = min 1 300) ∧
        (RetryStrategy.fixed = RetryStrategy.linear →
          calculate_delay ⟨3, 1, 300, RetryStrategy.fixed, 2, false⟩ 1 0 =
            min (1 * ((1 : Nat) : ℚ)) 300) ∧
        (RetryStrategy.fixed = RetryStrategy.exponential →
          calculate_delay ⟨3, 1, 300, RetryStrategy.fixed, 2, false⟩ 1 0 =
            min (1 * 2 ^ (1 - 1)) 300))) :=
  ⟨by norm_num,
   calculate_delay_clamped_nonneg ⟨3, 1, 300, RetryStrategy.fixed, 2, false⟩ 1 0
     (by norm_num) (by norm_num) (by norm_num) (by norm_num) (by norm_num)⟩

/-- The retry loop when every attempt from `attempt` up to `max_retries`
fails with an error the classifier lets through: it runs all remaining
iterations, surfaces the final attempt's error, adds one recorded attempt
per iteration and exactly one final failure. -/
theorem retrySyncAux_all_failing (cfg : RetryConfig) (op : Nat → Except ErrorKind α)
    (rand : Nat → ℚ) (name : String) (err : Nat → ErrorKind)
    (hop : ∀ i, 1 ≤ i → i ≤ cfg.max_retries →
      op i = .error (err i) ∧ (err i).is_non_retryable = false) :
    ∀ (r attempt : Nat) (m : StatsMap) (sleeps : List ℚ) (last : Option ErrorKind),
      1 ≤ r → 1 ≤ attempt → attempt + r = cfg.max_retries + 1 →
      (retrySyncAux cfg op rand name attempt r m sleeps last).outcome =
          .err (err cfg.max_retries) ∧
      (getStats (retrySyncAux cfg op rand name attempt r m sleeps last).stats
          name).total_attempts = (getStats m name).total_attempts + r ∧
      (getStats (retrySyncAux cfg op rand name attempt r m sleeps last).stats
          name).failed_operations = (getStats m name).failed_operations + 1 := by
  intro r
  induction r with
  | zero => intro attempt m sleeps last h1; omega
  | succ r ih =>
      intro attempt m sleeps last _ hatt hsum
      have hle : attempt ≤ cfg.max_retries := by omega
      obtain ⟨hopA, hnr⟩ := hop attempt hatt hle
      simp only [retrySyncAux, hopA]
      rw [if_neg (show ¬ ((err attempt).is_base_exception_only = true) by
        simp [not_base_exception_of_not_non_retryable _ hnr])]
      by_cases hr : r = 0
      · subst hr
        have heq : attempt = cfg.max_retries := by omega
        have hsr : ¬ (should_retry cfg (err attempt) attempt = true) := by
          unfold should_retry
          rw [if_pos (le_of_eq heq.symm)]
          simp
        rw [if_neg hsr]
        subst heq
        refine ⟨rfl, ?_, ?_⟩
        · simp only [getStats_record_attempt_state, record_attempt_total]
        · simp only [getStats_record_attempt_state, record_attempt_failed]
          simp
      · have hlt : attempt < cfg.max_retries := by omega
        have hsr : should_retry cfg (err attempt) attempt = true :=
          (should_retry_true_iff cfg (err attempt) attempt).mpr ⟨hlt, hnr⟩
        simp only [hsr, if_true]
        have hsum' : attempt + 1 + r = cfg.max_retries + 1 := by omega
        obtain ⟨h1, h2, h3⟩ := ih (attempt + 1)
          (record_attempt_state cfg m name attempt false (some (err attempt)))
          (if attempt < cfg.max_retries then
            sleeps ++ [calculate_delay cfg attempt (rand attempt)] else sleeps)
          (some (err attempt)) (by omega) (by omega) hsum'
        refine ⟨h1, ?_, ?_⟩
        · rw [h2, getStats_record_attempt_state, record_attempt_total]
          omega
        · rw [h3, getStats_record_attempt_state, record_attempt_failed]
          have : ¬((some (err attempt)).isSome = true ∧ attempt = cfg.max_retries) := by
            simp; omega
          rw [if_neg this]

/-- C1: with `max_retries = N ≥ 1` and an operation failing with a
retryable error on every attempt, `retry_sync` invokes the operation
exactly `N` times (attempts 1..N — the loop bound equals `max_retries`),
raises the final attempt's exception object, and leaves
`retry_stats[name]` with `total_attempts = N` and `failed_operations = 1`. -/
theorem retry_sync_exhausts_exactly_max_retries (cfg : RetryConfig)
    (op : Nat → Except ErrorKind α) (rand : Nat → ℚ) (name : String)
    (m : StatsMap) (err : Nat → ErrorKind) (N : Nat)
    (hN : cfg.max_retries = N) (hN1 : 1 ≤ N)
    (hop : ∀ i, 1 ≤ i → i ≤ N → op i = .error (err i) ∧ (err i).is_retryable = true)
    (hm : getStats m name = initStats) :
    (retry_sync cfg op rand name m).outcome = .err (err N) ∧
    (getStats (retry_sync cfg op rand name m).stats name).total_attempts = N ∧
    (getStats (retry_sync cfg op rand name m).stats name).failed_operations = 1 := by
  have hop' : ∀ i, 1 ≤ i → i ≤ cfg.max_retries →
      op i = .error (err i) ∧ (err i).is_non_retryable = false := by
    intro i h1 h2
    obtain ⟨ha, hb⟩ := hop i h1 (hN ▸ h2)
    exact ⟨ha, is_retryable_not_non_retryable _ hb⟩
  obtain ⟨h1, h2, h3⟩ := retrySyncAux_all_failing cfg op rand name err hop'
    cfg.max_retries 1 m [] none (by omega) (by omega) (by omega)
  unfold retry_sync
  rw [hN] at h1 h2 h3 ⊢
  refine ⟨h1, ?_, ?_⟩
  · rw [h2, hm]; simp [initStats]
  · rw [h3, hm]; simp [initStats]

/-- Witness for C1: `max_retries = 2`, an operation always raising
`ConnectionError`, starting from an empty stats dict. -/
theorem retry_sync_exhausts_exactly_max_retries_witness :
    1 ≤ 2 ∧
    ((retry_sync ⟨2, 1, 300, RetryStrategy.fixed, 2, false⟩
        (fun _ => (Except.error ErrorKind.connectionError : Except ErrorKind Unit))
        (fun _ => 0) "op" []).outcome = .err ErrorKind.connectionError ∧
      (getStats (retry_sync ⟨2, 1, 300, RetryStrategy.fixed, 2, false⟩
        (fun _ => (Except.error ErrorKind.connectionError : Except ErrorKind Unit))
        (fun _ => 0) "op" []).stats "op").total_attempts = 2 ∧
      (getStats (retry_sync ⟨2, 1, 300, RetryStrategy.fixed, 2, false⟩
        (fun _ => (Except.error ErrorKind.connectionError : Except ErrorKind Unit))
        (fun _ => 0) "op" []).stats "op").failed_operations = 1) :=
  ⟨by omega,
   retry_sync_exhausts_exactly_max_retries
     ⟨2, 1, 300, RetryStrategy.fixed, 2, false⟩
     (fun _ => (Except.error ErrorKind.connectionError : Except ErrorKind Unit))
     (fun _ => 0) "op" [] (fun _ => ErrorKind.connectionError) 2 rfl (by omega)
     (fun _ _ _ => ⟨rfl, rfl⟩) rfl⟩

/-- C8 counterexample: the claim quantifies over every fatal/non-retryable
error kind, but `KeyboardInterrupt` (cancellation/interrupt, classified
non-retryable) derives from `BaseException`, so the `except Exception`
handler (`retry_handler.py` line 116) does not catch it.  With
`max_retries = 3` and an operation raising it on attempt 1, the error does
escape immediately with no sleep, but `_record_attempt` never runs: no
stats entry is created and `total_attempts` for the operation is 0,
not 1. -/
theorem retry_sync_keyboard_interrupt_counterexample :
    ErrorKind.keyboardInterrupt.is_non_retryable = true ∧
    (retry_sync ⟨3, 1, 300, RetryStrategy.fixed, 2, false⟩
        (fun _ => (Except.error ErrorKind.keyboardInterrupt : Except ErrorKind Unit))
        (fun _ => 0) "op" []).outcome = .err ErrorKind.keyboardInterrupt ∧
    (retry_sync ⟨3, 1, 300, RetryStrategy.fixed, 2, false⟩
        (fun _ => (Except.error ErrorKind.keyboardInterrupt : Except ErrorKind Unit))
        (fun _ => 0) "op" []).sleeps = [] ∧
    (retry_sync ⟨3, 1, 300, RetryStrategy.fixed, 2, false⟩
        (fun _ => (Except.error ErrorKind.keyboardInterrupt : Except ErrorKind Unit))
        (fun _ => 0) "op" []).stats = [] ∧
    ¬ ((getStats (retry_sync ⟨3, 1, 300, RetryStrategy.fixed, 2, false⟩
        (fun _ => (Except.error ErrorKind.keyboardInterrupt : Except ErrorKind Unit))
        (fun _ => 0) "op" []).stats "op").total_attempts = 1) := by
  decide

/-- C8 (amended): an operation that fails on attempt 1 with a fatal
(non-retryable) error kind deriving from `Exception` — a type, validation,
memory or syntax error, not the `BaseException`-derived
`KeyboardInterrupt`/`SystemExit` which escape the `except Exception`
handler unrecorded — makes `retry_sync` raise that same error immediately:
no sleep is performed and `retry_stats[name].total_attempts = 1`. -/
theorem retry_sync_fatal_error_immediate (cfg : RetryConfig)
    (op : Nat → Except ErrorKind α) (rand : Nat → ℚ) (name : String)
    (m : StatsMap) (e : ErrorKind) (N : Nat)
    (hN : cfg.max_retries = N) (hN1 : 1 ≤ N)
    (hop : op 1 = .error e) (he : e.is_non_retryable = true)
    (hbe : e.is_base_exception_only = false)
    (hm : getStats m name = initStats) :
    (retry_sync cfg op rand name m).outcome = .err e ∧
    (retry_sync cfg op rand name m).sleeps = [] ∧
    (getStats (retry_sync cfg op rand name m).stats name).total_attempts = 1 := by
  obtain ⟨r, hr⟩ : ∃ r, N = r + 1 := ⟨N - 1, by omega⟩
  have hsr : ¬ (should_retry cfg e 1 = true) := by
    have : should_retry cfg e 1 = false := by
      unfold should_retry
      by_cases h1 : cfg.max_retries ≤ 1
      · rw [if_pos h1]
      · rw [if_neg h1, if_pos he]
    simp [this]
  unfold retry_sync
  rw [hN, hr]
  simp only [retrySyncAux, hop]
  rw [if_neg (show ¬ (e.is_base_exception_only = true) by simp [hbe])]
  rw [if_neg hsr]
  refine ⟨rfl, rfl, ?_⟩
  simp only [getStats_record_attempt_state, record_attempt_total, hm]
  simp [initStats]

/-- Witness for C8's amended statement: `max_retries = 3`, operation
raising `TypeError` (an `Exception` subclass) on attempt 1, starting from
an empty stats dict. -/
theorem retry_sync_fatal_error_immediate_witness :
    1 ≤ 3 ∧ ErrorKind.typeError.is_non_retryable = true ∧
    ErrorKind.typeError.is_base_exception_only = false ∧
    ((retry_sync ⟨3, 1, 300, RetryStrategy.exponential, 2, true⟩
        (fun _ => (Except.error ErrorKind.typeError : Except ErrorKind Unit))
        (fun _ => 0) "op" []).outcome = .err ErrorKind.typeError ∧
      (retry_sync ⟨3, 1, 300, RetryStrategy.exponential, 2, true⟩
        (fun _ => (Except.error ErrorKind.typeError : Except ErrorKind Unit))
        (fun _ => 0) "op" []).sleeps = [] ∧
      (getStats (retry_sync ⟨3, 1, 300, RetryStrategy.exponential, 2, true⟩
        (fun _ => (Except.error ErrorKind.typeError : Except ErrorKind Unit))
        (fun _ => 0) "op" []).stats "op").total_attempts = 1) :=
  ⟨by omega, rfl, rfl,
   retry_sync_fatal_error_immediate ⟨3, 1, 300, RetryStrategy.exponential, 2, true⟩
     (fun _ => (Except.error ErrorKind.typeError : Except ErrorKind Unit))
     (fun _ => 0) "op" [] ErrorKind.typeError 3 rfl (by omega) rfl rfl rfl rfl⟩

/-- The retry loop when attempts before `a` fail with errors the
classifier lets through and attempt `a < max_retries` fails with a
non-retryable error: the run stops at attempt `a`, surfaces that error,
and `failed_operations` is unchanged (no recorded attempt number equals
`max_retries`). -/
theorem retrySyncAux_stops_non_retryable (cfg : RetryConfig)
    (op : Nat → Except ErrorKind α) (rand : Nat → ℚ) (name : String)
    (err : Nat → ErrorKind) (a : Nat) (e : ErrorKind)
    (ha1 : 1 ≤ a) (haN : a < cfg.max_retries)
    (hpre : ∀ i, 1 ≤ i → i < a → op i = .error (err i) ∧ (err i).is_non_retryable = false)
    (hopa : op a = .error e) (he : e.is_non_retryable = true) :
    ∀ (r attempt : Nat) (m : StatsMap) (sleeps : List ℚ) (last : Option ErrorKind),
      1 ≤ attempt → attempt ≤ a → attempt + r = cfg.max_retries + 1 →
      (retrySyncAux cfg op rand name attempt r m sleeps last).outcome = .err e ∧
      (getStats (retrySyncAux cfg op rand name attempt r m sleeps last).stats
          name).failed_operations = (getStats m name).failed_operations := by
  intro r
  induction r with
  | zero => intro attempt m sleeps last _ h2 h3; omega
  | succ r ih =>
      intro attempt m sleeps last h1 h2 h3
      by_cases hac : attempt = a
      · subst hac
        have hsr : ¬ (should_retry cfg e attempt = true) := by
          have : should_retry cfg e attempt = false := by
            unfold should_retry
            by_cases hb : cfg.max_retries ≤ attempt
            · rw [if_pos hb]
            · rw [if_neg hb, if_pos he]
          simp [this]
        simp only [retrySyncAux, hopa]
        by_cases hbe : e.is_base_exception_only = true
        · rw [if_pos hbe]
          exact ⟨rfl, rfl⟩
        · rw [if_neg hbe, if_neg hsr]
          refine ⟨rfl, ?_⟩
          simp only [getStats_record_attempt_state, record_attempt_failed]
          have : ¬((some e).isSome = true ∧ attempt = cfg.max_retries) := by
            simp; omega
          rw [if_neg this]
          omega
      · have hlt : attempt < a := by omega
        obtain ⟨hopA, hnr⟩ := hpre attempt h1 hlt
        have hsr : should_retry cfg (err attempt) attempt = true :=
          (should_retry_true_iff cfg (err attempt) attempt).mpr ⟨by omega, hnr⟩
        simp only [retrySyncAux, hopA]
        rw [if_neg (show ¬ ((err attempt).is_base_exception_only = true) by
          simp [not_base_exception_of_not_non_retryable _ hnr])]
        rw [if_pos hsr]
        obtain ⟨ih1, ih2⟩ := ih (attempt + 1)
          (record_attempt_state cfg m name attempt false (some (err attempt)))
          (if attempt < cfg.max_retries then
            sleeps ++ [calculate_delay cfg attempt (rand attempt)] else sleeps)
          (some (err attempt)) (by omega) (by omega) (by omega)
        refine ⟨ih1, ?_⟩
        rw [ih2, getStats_record_attempt_state, record_attempt_failed]
        have : ¬((some (err attempt)).isSome = true ∧ attempt = cfg.max_retries) := by
          simp; omega
        rw [if_neg this]
        omega

/-- C10: a run whose final failure happens at attempt `a < max_retries`
(the error is classified non-retryable, so retrying stops early) does not
increment `failed_operations`; in general a recorded attempt increments
`failed_operations` exactly when it carries an exception and its attempt
number equals `max_retries`. -/
theorem retry_sync_early_failure_not_counted (cfg : RetryConfig)
    (op : Nat → Except ErrorKind α) (rand : Nat → ℚ) (name : String)
    (m : StatsMap) (err : Nat → ErrorKind) (a : Nat) (e : ErrorKind) (N : Nat)
    (hN : cfg.max_retries = N) (ha1 : 1 ≤ a) (haN : a < N)
    (hpre : ∀ i, 1 ≤ i → i < a → op i = .error (err i) ∧ (err i).is_non_retryable = false)
    (hopa : op a = .error e) (he : e.is_non_retryable = true) :
    (retry_sync cfg op rand name m).outcome = .err e ∧
    (getStats (retry_sync cfg op rand name m).stats name).failed_operations =
      (getStats m name).failed_operations ∧
    (∀ (s : OperationStats) (attempt : Nat) (success : Bool) (exc : Option ErrorKind),
      (record_attempt cfg s attempt success exc).failed_operations =
        s.failed_operations +
          (if exc.isSome = true ∧ attempt = cfg.max_retries then 1 else 0)) := by
  obtain ⟨h1, h2⟩ := retrySyncAux_stops_non_retryable cfg op rand name err a e
    ha1 (by omega) hpre hopa he cfg.max_retries 1 m [] none (by omega) (by omega)
    (by omega)
  exact ⟨h1, h2, fun s attempt success exc => record_attempt_failed cfg s attempt success exc⟩

/-- Witness for C10: `max_retries = 3`, `ConnectionError` on attempt 1,
`ValueError` (non-retryable) on attempt 2: `failed_operations` stays 0. -/
theorem retry_sync_early_failure_not_counted_witness :
    1 ≤ 2 ∧ 2 < 3 ∧
    ((retry_sync ⟨3, 1, 300, RetryStrategy.fixed, 2, false⟩
        (fun i => if i = 1 then (Except.error ErrorKind.connectionError : Except ErrorKind Unit)
                  else Except.error ErrorKind.valueError)
        (fun _ => 0) "op" []).outcome = .err ErrorKind.valueError ∧
      (getStats (retry_sync ⟨3, 1, 300, RetryStrategy.fixed, 2, false⟩
        (fun i => if i = 1 then (Except.error ErrorKind.connectionError : Except ErrorKind Unit)
                  else Except.error ErrorKind.valueError)
        (fun _ => 0) "op" []).stats "op").failed_operations =
        (getStats [] "op").failed_operations ∧
      (∀ (s : OperationStats) (attempt : Nat) (success : Bool) (exc : Option ErrorKind),
        (record_attempt ⟨3, 1, 300, RetryStrategy.fixed, 2, false⟩ s attempt success exc).failed_operations =
          s.failed_operations + (if exc.isSome = true ∧ attempt = 3 then 1 else 0))) :=
  ⟨by omega, by omega,
   retry_sync_early_failure_not_counted ⟨3, 1, 300, RetryStrategy.fixed, 2, false⟩
     (fun i => if i = 1 then (Except.error ErrorKind.connectionError : Except ErrorKind Unit)
               else Except.error ErrorKind.valueError)
     (fun _ => 0) "op" [] (fun _ => ErrorKind.connectionError) 2 ErrorKind.valueError 3
     rfl (by omega) (by omega)
     (by intro i hi1 hi2
         have : i = 1 := by omega
         subst this
         exact ⟨rfl, rfl⟩)
     rfl rfl⟩

/-- A closed breaker fed `failure_threshold` consecutive expected
failures: the count climbs by one per call, `last_failure_time` tracks the
last failing call, and the state flips to OPEN exactly when the count
reaches the threshold. -/
theorem runCalls_consecutive_failures (cfg : CircuitBreakerConfig) :
    ∀ (calls : List (ℚ × ErrorKind)) (cb : CircuitBreakerState),
      cb.state = CircuitState.closed →
      (∀ p ∈ calls, cfg.expected_exception p.2 = true) →
      cb.failure_count + calls.length = cfg.failure_threshold →
      calls ≠ [] →
      (runCalls cfg cb (calls.map fun p =>
          (p.1, (Except.error p.2 : Except ErrorKind Unit)))).state =
        CircuitState.opened ∧
      (runCalls cfg cb (calls.map fun p =>
          (p.1, (Except.error p.2 : Except ErrorKind Unit)))).failure_count =
        cfg.failure_threshold ∧
      ∃ p, calls.getLast? = some p ∧
        (runCalls cfg cb (calls.map fun p =>
            (p.1, (Except.error p.2 : Except ErrorKind Unit)))).last_failure_time =
          some p.1 := by
  intro calls
  induction calls with
  | nil => intro cb _ _ _ hne; exact absurd rfl hne
  | cons hd tl ih =>
      obtain ⟨t, e⟩ := hd
      intro cb hst hexp hcount _
      have hexp0 : cfg.expected_exception e = true := hexp (t, e) (by simp)
      have hstep : (breakerCall cfg cb t (Except.error e : Except ErrorKind Unit)).breaker =
          on_failure cfg cb t := by
        unfold breakerCall
        rw [hst]
        simp [breakerExec, hexp0]
      cases tl with
      | nil =>
          have hcount' : cb.failure_count + 1 = cfg.failure_threshold := by
            simp at hcount; omega
          have hth : cfg.failure_threshold ≤ cb.failure_count + 1 := by omega
          simp only [List.map, runCalls, hstep]
          unfold on_failure
          rw [if_pos hth]
          refine ⟨rfl, ?_, (t, e), rfl, rfl⟩
          show cb.failure_count + 1 = cfg.failure_threshold
          omega
      | cons hd2 tl2 =>
          have hth : ¬ (cfg.failure_threshold ≤ cb.failure_count + 1) := by
            simp at hcount; omega
          have hfail : on_failure cfg cb t =
              { failure_count := cb.failure_count + 1
                last_failure_time := some t
                state := cb.state } := by
            unfold on_failure
            rw [if_neg hth]
          simp only [List.map, runCalls, hstep, hfail]
          obtain ⟨h1, h2, p, hp1, hp2⟩ := ih
            { failure_count := cb.failure_count + 1
              last_failure_time := some t
              state := cb.state }
            (by simp [hst])
            (fun q hq => hexp q (List.mem_cons_of_mem _ hq))
            (by simp at hcount ⊢; omega)
            (by simp)
          refine ⟨h1, h2, p, ?_, hp2⟩
          rw [List.getLast?_cons_cons]
          exact hp1

/-- An OPEN breaker probed while `now - last_failure_time` is still within
`recovery_timeout` rejects the call without invoking the operation and
without changing its state. -/
theorem breakerCall_rejected (cfg : CircuitBreakerConfig)
    (cb : CircuitBreakerState) (now t : ℚ) (opResult : Except ErrorKind α)
    (hst : cb.state = CircuitState.opened)
    (hlt : cb.last_failure_time = some t)
    (hnow : now - t ≤ cfg.recovery_timeout) :
    breakerCall cfg cb now opResult =
      { outcome := CallOutcome.circuitOpenError, breaker := cb, invoked := false } := by
  obtain ⟨fc, lft, st⟩ := cb
  simp only at hst hlt
  subst hst
  subst hlt
  have hcond : ¬ (cfg.recovery_timeout < now - t) := not_lt.mpr hnow
  simp [breakerCall, hcond]

/-- C2: starting from a fresh breaker, `failure_threshold ≥ 1` consecutive
failures with expected-kind errors leave the state OPEN; afterwards every
call made at a clock value `now` with `now - last_failure_time ≤
recovery_timeout` raises the synthetic circuit-open rejection without
invoking the wrapped operation and leaves the breaker unchanged (the
elapsed-time comparison is evaluated against `now` inside each call — the
model has no timer). -/
theorem circuit_breaker_opens_and_fails_fast (cfg : CircuitBreakerConfig)
    (calls : List (ℚ × ErrorKind))
    (hlen : calls.length = cfg.failure_threshold)
    (hpos : 1 ≤ cfg.failure_threshold)
    (hexp : ∀ p ∈ calls, cfg.expected_exception p.2 = true) :
    (runFailures cfg calls).state = CircuitState.opened ∧
    ∃ tN, (runFailures cfg calls).last_failure_time = some tN ∧
      ∀ (now : ℚ) (opResult : Except ErrorKind Unit),
        now - tN ≤ cfg.recovery_timeout →
        breakerCall cfg (runFailures cfg calls) now opResult =
          { outcome := CallOutcome.circuitOpenError
            breaker := runFailures cfg calls
            invoked := false } := by
  have hne : calls ≠ [] := by
    intro h
    rw [h] at hlen
    simp at hlen
    omega
  obtain ⟨h1, _h2, p, _hp1, hp2⟩ := runCalls_consecutive_failures cfg calls
    initBreaker rfl hexp (by simp [initBreaker, hlen]) hne
  refine ⟨h1, p.1, hp2, ?_⟩
  intro now opResult hnow
  exact breakerCall_rejected cfg (runFailures cfg calls) now p.1 opResult h1 hp2 hnow

/-- Witness for C2: threshold 1, a single expected failure at time 0,
probe call at time 30 with `recovery_timeout = 60`. -/
theorem circuit_breaker_opens_and_fails_fast_witness :
    ([((0 : ℚ), ErrorKind.connectionError)].length = 1 ∧ 1 ≤ 1) ∧
    ((runFailures ⟨1, 60, fun _ => true⟩ [(0, ErrorKind.connectionError)]).state =
        CircuitState.opened ∧
      ∃ tN, (runFailures ⟨1, 60, fun _ => true⟩
          [(0, ErrorKind.connectionError)]).last_failure_time = some tN ∧
        ∀ (now : ℚ) (opResult : Except ErrorKind Unit),
          now - tN ≤ 60 →
          breakerCall ⟨1, 60, fun _ => true⟩
              (runFailures ⟨1, 60, fun _ => true⟩ [(0, ErrorKind.connectionError)])
              now opResult =
            { outcome := CallOutcome.circuitOpenError
              breaker := runFailures ⟨1, 60, fun _ => true⟩ [(0, ErrorKind.connectionError)]
              invoked := false }) :=
  ⟨⟨rfl, le_refl 1⟩,
   circuit_breaker_opens_and_fails_fast ⟨1, 60, fun _ => true⟩
     [(0, ErrorKind.connectionError)] rfl (le_refl 1) (fun _ _ => rfl)⟩

/-- C6: an OPEN breaker probed after `recovery_timeout` has elapsed since
`last_failure_time` moves to HALF_OPEN and executes the wrapped operation
(`invoked = true`).  A success closes the circuit with `failure_count`
reset to 0; a failure with an expected error re-stamps
`last_failure_time := now` and increments `failure_count` — which was NOT
reset on entry to HALF_OPEN — so the breaker returns to OPEN exactly when
the incremented count reaches the threshold. -/
theorem circuit_breaker_half_open_transitions (cfg : CircuitBreakerConfig)
    (cb : CircuitBreakerState) (t now : ℚ)
    (hst : cb.state = CircuitState.opened)
    (hlt : cb.last_failure_time = some t)
    (helapsed : cfg.recovery_timeout < now - t) :
    (∀ v : α, breakerCall cfg cb now (Except.ok v) =
      { outcome := CallOutcome.ok v
        breaker := { failure_count := 0
                     last_failure_time := some t
                     state := CircuitState.closed }
        invoked := true }) ∧
    (∀ e : ErrorKind, cfg.expected_exception e = true →
      breakerCall cfg cb now (Except.error e : Except ErrorKind α) =
        { outcome := CallOutcome.raised e
          breaker := { failure_count := cb.failure_count + 1
                       last_failure_time := some now
                       state := if cfg.failure_threshold ≤ cb.failure_count + 1
                                then CircuitState.opened
                                else CircuitState.halfOpen }
          invoked := true }) := by
  obtain ⟨fc, lft, st⟩ := cb
  simp only at hst hlt
  subst hst
  subst hlt
  constructor
  · intro v
    simp [breakerCall, helapsed, breakerExec, on_success]
  · intro e he
    simp only [breakerCall, if_pos helapsed, breakerExec, he, if_pos]
    unfold on_failure
    by_cases hth : cfg.failure_threshold ≤ fc + 1 <;>
      simp [hth]

/-- Witness for C6: threshold 2, timeout 60, breaker OPEN with count 2 and
last failure at time 0, probed at time 61. -/
theorem circuit_breaker_half_open_transitions_witness :
    ((60 : ℚ) < 61 - 0) ∧
    breakerCall ⟨2, 60, fun _ => true⟩
        ⟨2, some 0, CircuitState.opened⟩ 61 (Except.ok ()) =
      { outcome := CallOutcome.ok ()
        breaker := { failure_count := 0
                     last_failure_time := some 0
                     state := CircuitState.closed }
        invoked := true } ∧
    breakerCall ⟨2, 60, fun _ => true⟩
        ⟨2, some 0, CircuitState.opened⟩ 61
        (Except.error ErrorKind.timeoutError : Except ErrorKind Unit) =
      { outcome := CallOutcome.raised ErrorKind.timeoutError
        breaker := { failure_count := 3
                     last_failure_time := some 61
                     state := if 2 ≤ 2 + 1 then CircuitState.opened
                              else CircuitState.halfOpen }
        invoked := true } :=
  ⟨by norm_num,
   (circuit_breaker_half_open_transitions ⟨2, 60, fun _ => true⟩
     ⟨2, some 0, CircuitState.opened⟩ 0 61 rfl rfl (by norm_num)).1 (),
   (circuit_breaker_half_open_transitions ⟨2, 60, fun _ => true⟩
     ⟨2, some 0, CircuitState.opened⟩ 0 61 rfl rfl (by norm_num)).2
     ErrorKind.timeoutError rfl⟩

/-- Case analysis of one `checkRule` step: either the rule fires — it is
enabled, its condition holds, and any previous trigger is at least a
cooldown in the past — with `last_triggered` stamped to `now`; or nothing
fires and the rule is returned unchanged. -/
theorem checkRule_cases (now : ℚ) (metrics : Snapshot) (rule : AlertRule) :
    (checkRule now metrics rule = (true, { rule with last_triggered := some now }) ∧
      rule.enabled = true ∧ rule.condition metrics = .ok true ∧
      (∀ lt, rule.last_triggered = some lt → rule.cooldown_minutes ≤ now - lt)) ∨
    checkRule now metrics rule = (false, rule) := by
  by_cases hen : rule.enabled
  · cases hl : rule.last_triggered with
    | none =>
        cases hc : rule.condition metrics with
        | ok b =>
            cases b with
            | true =>
                left
                refine ⟨?_, hen, rfl, ?_⟩
                · simp [checkRule, hen, hl, hc]
                · intro lt hlt; exact absurd hlt (by simp)
            | false => right; simp [checkRule, hen, hl, hc]
        | error u => right; simp [checkRule, hen, hl, hc]
    | some lt =>
        by_cases hcd : now - lt < rule.cooldown_minutes
        · right; simp [checkRule, hen, hl, hcd]
        · cases hc : rule.condition metrics with
          | ok b =>
              cases b with
              | true =>
                  left
                  refine ⟨?_, hen, rfl, ?_⟩
                  · simp [checkRule, hen, hl, hcd, hc]
                  · intro lt2 hlt2
                    injection hlt2 with h
                    subst h
                    linarith [not_lt.mp hcd]
              | false => right; simp [checkRule, hen, hl, hcd, hc]
          | error u => right; simp [checkRule, hen, hl, hcd, hc]
  · right
    simp [checkRule, hen]

/-- Fires of one rule across any evaluation sequence are separated by at
least the rule cooldown; and if the rule enters the sequence with a
recorded trigger, the first fire is at least a cooldown after it. -/
theorem runRule_fire_times_spaced :
    ∀ (evts : List (ℚ × Snapshot)) (rule : AlertRule),
      List.Chain' (fun a b => a + rule.cooldown_minutes ≤ b) (runRule rule evts).1 ∧
      (∀ lt t0, rule.last_triggered = some lt →
        (runRule rule evts).1.head? = some t0 → lt + rule.cooldown_minutes ≤ t0) := by
  intro evts
  induction evts with
  | nil =>
      intro rule
      exact ⟨List.chain'_nil, fun lt t0 _ h => absurd h (by simp [runRule])⟩
  | cons hd tl ih =>
      obtain ⟨t, s⟩ := hd
      intro rule
      rcases checkRule_cases t s rule with ⟨heq, _hen, _hc, hcd⟩ | heq
      · have hrw : runRule rule ((t, s) :: tl) =
            (t :: (runRule { rule with last_triggered := some t } tl).1,
             (runRule { rule with last_triggered := some t } tl).2) := by
          simp [runRule, heq]
        obtain ⟨ihc, ihh⟩ := ih { rule with last_triggered := some t }
        constructor
        · rw [hrw]
          rw [List.chain'_cons']
          exact ⟨fun b hb => ihh t b rfl hb, ihc⟩
        · intro lt t0 hlt ht0
          rw [hrw] at ht0
          simp at ht0
          subst ht0
          have := hcd lt hlt
          linarith
      · have hrw : runRule rule ((t, s) :: tl) = runRule rule tl := by
          simp [runRule, heq]
        rw [hrw]
        exact ih rule

/-- C4: (i) across any sequence of evaluations, a rule never fires twice
within its cooldown window: successive fire times are at least
`cooldown_minutes` apart; (ii) an enabled rule whose `last_triggered` is
within the window is skipped unchanged even if its condition holds;
(iii) a rule with no prior trigger is never skipped for cooldown — with a
true condition it fires; (iv) once the cooldown has elapsed the rule fires
again. -/
theorem alert_rule_cooldown_spec :
    (∀ (rule : AlertRule) (evts : List (ℚ × Snapshot)),
      List.Chain' (fun a b => a + rule.cooldown_minutes ≤ b) (runRule rule evts).1) ∧
    (∀ (rule : AlertRule) (now : ℚ) (metrics : Snapshot) (lt : ℚ),
      rule.enabled = true → rule.last_triggered = some lt →
      now - lt < rule.cooldown_minutes →
      checkRule now metrics rule = (false, rule)) ∧
    (∀ (rule : AlertRule) (now : ℚ) (metrics : Snapshot),
      rule.enabled = true → rule.last_triggered = none →
      rule.condition metrics = .ok true →
      (checkRule now metrics rule).1 = true) ∧
    (∀ (rule : AlertRule) (now : ℚ) (metrics : Snapshot) (lt : ℚ),
      rule.enabled = true → rule.last_triggered = some lt →
      rule.cooldown_minutes ≤ now - lt → rule.condition metrics = .ok true →
      (checkRule now metrics rule).1 = true) := by
  refine ⟨fun rule evts => (runRule_fire_times_spaced evts rule).1, ?_, ?_, ?_⟩
  · intro rule now metrics lt hen hlt hcd
    simp [checkRule, hen, hlt, hcd]
  · intro rule now metrics hen hlt hc
    simp [checkRule, hen, hlt, hc]
  · intro rule now metrics lt hen hlt hcd hc
    simp [checkRule, hen, hlt, not_lt.mpr hcd, hc]

/-- Witness for C4 on concrete rules: a rule last triggered at time 5 with
cooldown 10 is skipped at time 6 and fires at time 20; a never-triggered
rule fires immediately; fire times over a concrete run are spaced. -/
theorem alert_rule_cooldown_spec_witness :
    List.Chain' (fun a b => a + sampleTriggeredRule.cooldown_minutes ≤ b)
      (runRule sampleTriggeredRule [(6, []), (20, [])]).1 ∧
    ((6 : ℚ) - 5 < sampleTriggeredRule.cooldown_minutes ∧
      checkRule 6 [] sampleTriggeredRule = (false, sampleTriggeredRule)) ∧
    (checkRule 0 [] sampleFreshRule).1 = true ∧
    (checkRule 20 [] sampleTriggeredRule).1 = true :=
  ⟨alert_rule_cooldown_spec.1 sampleTriggeredRule [(6, []), (20, [])],
   ⟨by norm_num [sampleTriggeredRule],
    alert_rule_cooldown_spec.2.1 sampleTriggeredRule 6 [] 5 rfl rfl
      (by norm_num [sampleTriggeredRule])⟩,
   alert_rule_cooldown_spec.2.2.1 sampleFreshRule 0 [] rfl rfl rfl,
   alert_rule_cooldown_spec.2.2.2 sampleTriggeredRule 20 [] 5 rfl rfl
     (by norm_num [sampleTriggeredRule]) rfl⟩

/-- Two send tasks are created per fired rule (email and webhook). -/
theorem length_flatMap_pair (l : List AlertRule)
    (f g : AlertRule → Except Unit Unit) :
    (l.flatMap fun a => [f a, g a]).length = 2 * l.length := by
  induction l with
  | nil => rfl
  | cons hd tl ih =>
      simp only [List.flatMap_cons, List.length_append, ih, List.length_cons]
      simp
      omega

/-- C5: dispatching the fired rules creates and settles one send per fired
rule and channel (2 per rule: email and webhook) — the gathered result
list has an entry for every send regardless of individual outcomes; the
history grows by exactly the number of fired rules; every appended event
holds the (copied) snapshot value passed to this call; and the resulting
manager state is independent of channel successes or failures. -/
theorem alert_dispatch_full_fanout_and_history (now : ℚ)
    (emailSend webhookSend : AlertRule → Snapshot → Except Unit Unit)
    (st : AlertManagerState) (metrics : Snapshot) :
    (process_metrics_and_alerts now emailSend webhookSend st metrics).1.length =
      2 * (check_alert_conditions now metrics st.alert_rules).1.length ∧
    (process_metrics_and_alerts now emailSend webhookSend st
        metrics).2.alert_history.length =
      st.alert_history.length +
        (check_alert_conditions now metrics st.alert_rules).1.length ∧
    (∀ ev ∈ (process_metrics_and_alerts now emailSend webhookSend st
        metrics).2.alert_history.drop st.alert_history.length,
      ev.metrics = metrics) ∧
    (∀ es ws : AlertRule → Snapshot → Except Unit Unit,
      (process_metrics_and_alerts now es ws st metrics).2 =
        (process_metrics_and_alerts now emailSend webhookSend st metrics).2) := by
  refine ⟨?_, ?_, ?_, ?_⟩
  · exact length_flatMap_pair _ _ _
  · simp [process_metrics_and_alerts]
  · simp only [process_metrics_and_alerts, List.drop_left]
    intro ev hev
    rw [List.mem_map] at hev
    obtain ⟨a, _, rfl⟩ := hev
    rfl
  · intro es ws
    rfl

/-- Witness for C5: one enabled default rule fires on a concrete snapshot
with both channels failing; the appended history event carries the
snapshot. -/
theorem alert_dispatch_full_fanout_and_history_witness :
    ((⟨"sla_violation", "critical", 0, [("sla_violations", 1)]⟩ : AlertEvent) ∈
      (process_metrics_and_alerts 0 (fun _ _ => Except.error ())
          (fun _ _ => Except.error ()) ⟨[sla_violation_rule], []⟩
          [("sla_violations", 1)]).2.alert_history.drop 0) ∧
    (⟨"sla_violation", "critical", 0, [("sla_violations", 1)]⟩ : AlertEvent).metrics =
      [("sla_violations", 1)] :=
  ⟨by decide,
   (alert_dispatch_full_fanout_and_history 0 (fun _ _ => Except.error ())
      (fun _ _ => Except.error ()) ⟨[sla_violation_rule], []⟩
      [("sla_violations", 1)]).2.2.1
     ⟨"sla_violation", "critical", 0, [("sla_violations", 1)]⟩ (by decide)⟩

/-- C7 counterexample: the claim says `long_running_task` fires exactly
when the value at key `task_duration_seconds` exceeds 3600, but the code
reads the key `task_duration` (`monitoring.py` line 203): on a snapshot
holding only `task_duration_seconds = 7200` the rule does not fire even
though the claimed condition holds. -/
theorem long_running_task_key_counterexample :
    (checkRule 0 [("task_duration_seconds", (7200 : ℚ))]
        long_running_task_rule).1 = false ∧
    (3600 : ℚ) < sget [("task_duration_seconds", (7200 : ℚ))]
        "task_duration_seconds" 0 := by
  decide

/-- C7 (amended): the default `long_running_task` rule, evaluated fresh,
fires on a snapshot exactly when the value at key `task_duration` (missing
key defaulting to 0, so the rule does not fire) is greater than 3600, with
severity `warning` and cooldown 30 minutes. -/
theorem long_running_task_fires_on_task_duration (t : ℚ) (s : Snapshot) :
    ((checkRule t s long_running_task_rule).1 = true ↔
      3600 < sget s "task_duration" 0) ∧
    long_running_task_rule.severity = "warning" ∧
    long_running_task_rule.cooldown_minutes = 30 ∧
    (sget s "task_duration" 0 ≤ 3600 →
      (checkRule t s long_running_task_rule).1 = false) := by
  have hfire : (checkRule t s long_running_task_rule).1 =
      decide (sget s "task_duration" 0 > 3600) := by
    by_cases h : sget s "task_duration" 0 > 3600 <;>
      simp [checkRule, long_running_task_rule, h]
  refine ⟨?_, rfl, rfl, ?_⟩
  · rw [hfire]
    simp [gt_iff_lt]
  · intro hle
    rw [hfire]
    simp only [decide_eq_false_iff_not, gt_iff_lt, not_lt]
    exact hle

/-- Witness for C7's amended statement: fires at `task_duration = 5000`,
does not fire on an empty snapshot. -/
theorem long_running_task_fires_on_task_duration_witness :
    (checkRule 0 [("task_duration", (5000 : ℚ))] long_running_task_rule).1 = true ∧
    sget ([] : Snapshot) "task_duration" 0 ≤ 3600 ∧
    (checkRule 0 ([] : Snapshot) long_running_task_rule).1 = false :=
  ⟨(long_running_task_fires_on_task_duration 0
      [("task_duration", (5000 : ℚ))]).1.mpr (by norm_num [sget]),
   by norm_num [sget],
   (long_running_task_fires_on_task_duration 0 ([] : Snapshot)).2.2.2
     (by norm_num [sget])⟩

/-- C9 counterexample: the claim says `get_statistics` returns the most
recent 10 events of the history, but the code returns
`recent_alerts[-10:]` — the last 10 of the events inside the 24-hour
window (`monitoring.py` lines 393-404).  With one event 2000 minutes old
and one current event, the summary holds only the current event while the
most recent 10 events of the history are both. -/
theorem get_alert_statistics_summary_window_counterexample :
    (get_alert_statistics 2000
        ⟨[], [⟨"sla_violation", "critical", 0, []⟩,
              ⟨"high_failure_rate", "critical", 2000, []⟩]⟩).recent_alert_summary ≠
      ([⟨"sla_violation", "critical", 0, []⟩,
        ⟨"high_failure_rate", "critical", 2000, []⟩] : List AlertEvent).drop
        (([⟨"sla_violation", "critical", 0, []⟩,
           ⟨"high_failure_rate", "critical", 2000, []⟩] : List AlertEvent).length - 10) := by
  have h1 : ¬ ((2000 : ℚ) - 1440 < 0) := by norm_num
  have h2 : (2000 : ℚ) - 1440 < 2000 := by norm_num
  simp [get_alert_statistics, List.filter, h1, h2]

/-- C9 (amended): `get_alert_statistics` returns the total alert count,
the counts of critical-severity and warning-severity events, the count of
events whose timestamps fall within the trailing 24-hour window (computed
from the event timestamps), the count of currently-enabled rules, and the
most recent 10 events among those within the 24-hour window (a suffix of
the chronological in-window list, of length `min 10` its size). -/
theorem get_alert_statistics_fields (now : ℚ) (st : AlertManagerState) :
    (get_alert_statistics now st).total_alerts = st.alert_history.length ∧
    (get_alert_statistics now st).critical_alerts =
      st.alert_history.countP (fun a => a.severity == "critical") ∧
    (get_alert_statistics now st).warning_alerts =
      st.alert_history.countP (fun a => a.severity == "warning") ∧
    (get_alert_statistics now st).recent_alerts_24h =
      st.alert_history.countP (fun a => decide (now - 1440 < a.timestamp)) ∧
    (get_alert_statistics now st).active_rules =
      st.alert_rules.countP (fun r => r.enabled) ∧
    List.IsSuffix (get_alert_statistics now st).recent_alert_summary
      (st.alert_history.filter (fun a => decide (now - 1440 < a.timestamp))) ∧
    (get_alert_statistics now st).recent_alert_summary.length =
      min 10 (st.alert_history.filter
        (fun a => decide (now - 1440 < a.timestamp))).length := by
  refine ⟨rfl, ?_, ?_, ?_, ?_, ?_, ?_⟩
  · simp [get_alert_statistics, List.countP_eq_length_filter]
  · simp [get_alert_statistics, List.countP_eq_length_filter]
  · simp [get_alert_statistics, List.countP_eq_length_filter]
  · simp [get_alert_statistics, List.countP_eq_length_filter]
  · exact List.drop_suffix _ _
  · simp only [get_alert_statistics, List.length_drop]
    omega

end Vibe
